import Mathlib

/-!
Verification of the map compiler in `bevy_tiled` (`src/map.rs`).

The Rust `f32` arithmetic of the source is embedded as exact rational
arithmetic over `ℚ`; every quantity the claims touch is small enough that
`f32` computes it exactly, so the rational model is faithful on the inputs
of interest.  Machine integers (`u32`, `usize`) are embedded as `Nat`.
-/

unseal Rat.add Rat.mul Rat.sub Rat.inv

/-- Two-component vector, mirror of `bevy::Vec2` restricted to what
`map.rs` uses (exact rationals in place of `f32`). -/
structure Vec2 where
  x : ℚ
  y : ℚ
deriving DecidableEq

/-- Four-component vector, mirror of `bevy::Vec4` (exact rationals). -/
structure Vec4 where
  x : ℚ
  y : ℚ
  z : ℚ
  w : ℚ
deriving DecidableEq

/-- Three-component vector, mirror of `bevy::Vec3` (exact rationals). -/
structure Vec3 where
  x : ℚ
  y : ℚ
  z : ℚ
deriving DecidableEq

/-- Mirror of `tiled::Orientation`, restricted to the two variants `map.rs`
supports; every `match` in the source makes the remaining variants a
fatal error, and no claim exercises them. -/
inductive TiledOrientation where
  | orthogonal
  | isometric
deriving DecidableEq

/-- Source `Map::project_ortho` (map.rs:69-73). -/
def project_ortho (pos : Vec2) (tile_width tile_height : ℚ) : Vec2 :=
  let x := tile_width * pos.x
  let y := tile_height * pos.y
  ⟨x, -y⟩

/-- Source `Map::unproject_ortho` (map.rs:74-78). -/
def unproject_ortho (pos : Vec2) (tile_width tile_height : ℚ) : Vec2 :=
  let x := pos.x / tile_width
  let y := -pos.y / tile_height
  ⟨x, y⟩

/-- Source `Map::project_iso` (map.rs:79-83). -/
def project_iso (pos : Vec2) (tile_width tile_height : ℚ) : Vec2 :=
  let x := (pos.x - pos.y) * tile_width / 2
  let y := (pos.x + pos.y) * tile_height / 2
  ⟨x, -y⟩

/-- Rust `f32::round`: round to nearest, ties away from zero.  Mathlib's
`round` rounds ties up, which agrees on nonnegative input; negating first
gives the away-from-zero behaviour on negative input. -/
def round_half_away (q : ℚ) : ℤ :=
  if q < 0 then -round (-q) else round q

/-- Source `Map::unproject_iso` (map.rs:84-90); both components are rounded to
the nearest integer. -/
def unproject_iso (pos : Vec2) (tile_width tile_height : ℚ) : Vec2 :=
  let half_width := tile_width / 2
  let half_height := tile_height / 2
  let x := ((pos.x / half_width) + (-pos.y / half_height)) / 2
  let y := ((-pos.y / half_height) - (pos.x / half_width)) / 2
  ⟨(round_half_away x : ℚ), (round_half_away y : ℚ)⟩

/-- One cell of `tiled::LayerData::Finite`: raw gid plus the three flip
flags, mirror of `tiled::LayerTile`. -/
structure TiledTile where
  gid : Nat
  flip_h : Bool
  flip_v : Bool
  flip_d : Bool
deriving DecidableEq

/-- The fields of `tiled::Tileset` read by `map.rs`.  `image_width` and
`image_height` are the dimensions of `tileset.images.first()`. -/
structure TiledTileset where
  first_gid : Nat
  tile_width : Nat
  tile_height : Nat
  spacing : Nat
  image_width : Nat
  image_height : Nat
  tilecount : Option Nat
deriving DecidableEq

/-- The fields of `tiled::Layer` read by `map.rs`; `tiles` is the dense
`LayerData::Finite` grid, indexed `tiles[y][x]` exactly as the source
indexes it (`tiles[lookup_y][lookup_x]`).  An `Infinite` grid makes the
source panic and is not modelled. -/
structure TiledLayer where
  visible : Bool
  tiles : List (List TiledTile)
deriving DecidableEq

/-- The fields of `tiled::Map` read by the compilation path of
`Map::try_from_bytes`. -/
structure TiledMap where
  width : Nat
  height : Nat
  tile_width : Nat
  tile_height : Nat
  orientation : TiledOrientation
  tilesets : List TiledTileset
  layers : List TiledLayer
deriving DecidableEq

/-- One tileset's contribution to the `tile_gids` map (map.rs:120-124):
`insert(i, first_gid)` for every `i` in
`[first_gid, first_gid + tilecount.unwrap_or(1))`.  A `HashMap::insert`
overwrites, so the freshly registered range shadows whatever an earlier
tileset put there. -/
def registerTileset (m : Nat → Option Nat) (ts : TiledTileset) : Nat → Option Nat :=
  fun g =>
    if ts.first_gid ≤ g ∧ g < ts.first_gid + ts.tilecount.getD 1 then some ts.first_gid
    else m g

/-- The `tile_gids` resolver of `Map::try_from_bytes` (map.rs:118-124):
a single forward pass over the tilesets in declaration order, starting
from the empty map. -/
def tile_gids (tilesets : List TiledTileset) : Nat → Option Nat :=
  tilesets.foldl registerTileset (fun _ => none)

/-- The `Tile` struct of map.rs (map.rs:26-35). -/
structure Tile where
  tile_id : Nat
  pos : Vec2
  vertex : Vec4
  uv : Vec4
  flip_d : Bool
  flip_h : Bool
  flip_v : Bool
deriving DecidableEq

/-- The `Chunk` struct of map.rs (map.rs:37-41). -/
structure Chunk where
  position : Vec2
  tiles : List (List Tile)
deriving DecidableEq

/-- The `TilesetLayer` struct of map.rs (map.rs:43-48). -/
structure TilesetLayer where
  tile_size : Vec2
  chunks : List (List Chunk)
  tileset_guid : Nat
deriving DecidableEq

/-- The `Layer` struct of map.rs (map.rs:50-53). -/
structure Layer where
  tileset_layers : List TilesetLayer
deriving DecidableEq

/-- The UV-corner reordering of the Mesh Assembler (map.rs:341-361),
abstracted over the corner type: start from the unflipped corner order,
then `swap(0,2)` on diagonal flip, then `reverse` on horizontal flip,
then `reverse; swap(0,2); swap(1,3)` on vertical flip, in exactly that
sequence. -/
def quadSwap02 {α : Type} (q : α × α × α × α) : α × α × α × α :=
  (q.2.2.1, q.2.1, q.1, q.2.2.2)

/-- Step `next_uvs.reverse()` on a 4-element array. -/
def quadReverse {α : Type} (q : α × α × α × α) : α × α × α × α :=
  (q.2.2.2, q.2.2.1, q.2.1, q.1)

/-- Step `next_uvs.swap(1, 3)` on a 4-element array. -/
def quadSwap13 {α : Type} (q : α × α × α × α) : α × α × α × α :=
  (q.1, q.2.2.2, q.2.2.1, q.2.1)

/-- The full flip reordering applied to the quad of UV corners
(map.rs:351-361). -/
def flipUVs {α : Type} (flip_d flip_h flip_v : Bool) (q : α × α × α × α) : α × α × α × α :=
  let q1 := if flip_d then quadSwap02 q else q
  let q2 := if flip_h then quadReverse q1 else q1
  if flip_v then quadSwap13 (quadSwap02 (quadReverse q2)) else q2

/-- The unflipped UV corner order of a tile (map.rs:341-350):
`[(u.x, u.w), (u.x, u.y), (u.z, u.y), (u.z, u.w)]`. -/
def baseUVQuad (u : Vec4) : (ℚ × ℚ) × (ℚ × ℚ) × (ℚ × ℚ) × (ℚ × ℚ) :=
  ((u.x, u.w), (u.x, u.y), (u.z, u.y), (u.z, u.w))

/-- Chunk extent, `target_chunk_x` (map.rs:139). -/
def target_chunk_x : Nat := 32

/-- Chunk extent, `target_chunk_y` (map.rs:140). -/
def target_chunk_y : Nat := 32

/-- Source `chunk_size_x` / `chunk_size_y` (map.rs:142-143):
`(n as f32 / 32.0).ceil().max(1.0) as usize`. -/
def chunk_size (n : Nat) : Nat :=
  (max ⌈(n : ℚ) / 32⌉ 1).toNat

/-- Modelled from the spec: `TiledMapLoader::remove_tile_flags` lives in
`loader.rs`, which is not part of the provided source.  Per the spec's
glossary a gid "encodes both a tileset-relative tile index and flip
bits", and there are exactly three flip flags, stored in the top bits of
the 32-bit gid; removing them is clearing bits 29-31, that is `% 2^29`. -/
def remove_tile_flags (gid : Nat) : Nat := gid % 2 ^ 29

/-- Source `columns` (map.rs:161): column count of the tileset atlas, computed
in `f32` and kept as a float, `((texture_width + spacing) / (tile_width
+ spacing)).floor()`. -/
def tilesetColumns (ts : TiledTileset) : ℚ :=
  ((⌊(((ts.image_width : ℚ) + (ts.spacing : ℚ)) / ((ts.tile_width : ℚ) + (ts.spacing : ℚ)))⌋ : ℤ) : ℚ)

/-- Rust `f32` truncation toward zero, used by the `%` operator. -/
def qtrunc (q : ℚ) : ℤ :=
  if q < 0 then -⌊-q⌋ else ⌊q⌋

/-- Rust's `%` on `f32`: `a - b * trunc(a / b)`.  `map.rs` only applies
it to a nonnegative tile index and a positive column count, where this
agrees with the mathematical floor-mod. -/
def fmod (a b : ℚ) : ℚ := a - b * ((qtrunc (a / b) : ℤ) : ℚ)

/-- The empty `Tile` (map.rs:276-285): gid 0, zero vertex and UV rects,
no flips. -/
def emptyTile (tile_x tile_y : Nat) : Tile :=
  { tile_id := 0
    pos := ⟨(tile_x : ℚ), (tile_y : ℚ)⟩
    vertex := ⟨0, 0, 0, 0⟩
    uv := ⟨0, 0, 0, 0⟩
    flip_d := false
    flip_h := false
    flip_v := false }

/-- Cell read `tiles[lookup_y][lookup_x]` (map.rs:184-187); the claims
only evaluate it inside the grid, where the default is never used. -/
def tileAt (layer : TiledLayer) (x y : Nat) : TiledTile :=
  (layer.tiles.getD y []).getD x ⟨0, false, false, false⟩

/-- The orientation-dependent vertex rect of one tile (map.rs:217-257),
as `Vec4::new(start_x, start_y, end_x, end_y)` (map.rs:269).  The tile
width/height/spacing are the *tileset's* values (map.rs:155-157). -/
def vertexRect (o : TiledOrientation) (lookup_x lookup_y : Nat)
    (tile_width tile_height tile_space : ℚ) : Vec4 :=
  match o with
  | .orthogonal =>
    let center := project_ortho ⟨(lookup_x : ℚ), (lookup_y : ℚ)⟩ tile_width tile_height
    ⟨center.x, center.y - tile_height - tile_space, center.x + tile_width + tile_space, center.y⟩
  | .isometric =>
    let center := project_iso ⟨(lookup_x : ℚ), (lookup_y : ℚ)⟩ tile_width tile_height
    ⟨center.x - tile_width / 2, center.y - tile_height, center.x + tile_width / 2, center.y⟩

/-- The body of the innermost loop of the Chunk Builder (map.rs:176-288)
for one cell: `some tile` when a `Tile` is pushed onto `tiles_y`, `none`
when the `continue` at map.rs:195 skips the cell (its raw gid is outside
this tileset's `[first_gid, first_gid + tilecount)` range).  The source
reads `tilecount.unwrap()` here — every modelled map carries an explicit
tilecount. -/
def buildCell (m : TiledMap) (layer : TiledLayer) (ts : TiledTileset)
    (chunk_x chunk_y tile_x tile_y : Nat) : Option Tile :=
  let lookup_x := chunk_x * target_chunk_x + tile_x
  let lookup_y := chunk_y * target_chunk_y + tile_y
  if lookup_x < m.width ∧ lookup_y < m.height then
    let map_tile := tileAt layer lookup_x lookup_y
    if map_tile.gid < ts.first_gid ∨ ts.first_gid + ts.tilecount.getD 0 ≤ map_tile.gid then
      none
    else
      let tile : ℚ := ((remove_tile_flags map_tile.gid : ℚ) - (ts.first_gid : ℚ))
      let tile_width : ℚ := ts.tile_width
      let tile_height : ℚ := ts.tile_height
      let tile_space : ℚ := ts.spacing
      let columns : ℚ := tilesetColumns ts
      let texture_width : ℚ := ts.image_width
      let texture_height : ℚ := ts.image_height
      let sprite_sheet_x : ℚ :=
        ((⌊fmod tile columns * (tile_width + tile_space) - tile_space⌋ : ℤ) : ℚ)
      let sprite_sheet_y : ℚ :=
        ((⌊tile / columns⌋ : ℤ) : ℚ) * (tile_height + tile_space) - tile_space
      some
        { tile_id := map_tile.gid
          pos := ⟨(tile_x : ℚ), (tile_y : ℚ)⟩
          vertex := vertexRect m.orientation lookup_x lookup_y tile_width tile_height tile_space
          uv := ⟨sprite_sheet_x / texture_width, sprite_sheet_y / texture_height,
                 (sprite_sheet_x + tile_width) / texture_width,
                 (sprite_sheet_y + tile_height) / texture_height⟩
          flip_d := map_tile.flip_d
          flip_h := map_tile.flip_h
          flip_v := map_tile.flip_v }
  else
    some (emptyTile tile_x tile_y)

/-- One `tiles_y` column of a chunk (map.rs:174-290): the cells pushed
for `tile_y = 0..32` at a fixed `tile_x`; a `continue` pushes nothing. -/
def chunkColumn (m : TiledMap) (layer : TiledLayer) (ts : TiledTileset)
    (chunk_x chunk_y tile_x : Nat) : List Tile :=
  (List.range target_chunk_y).filterMap (buildCell m layer ts chunk_x chunk_y tile_x)

/-- One `Chunk` (map.rs:293-296): the 32 `tiles_y` columns for
`tile_x = 0..32`. -/
def buildChunk (m : TiledMap) (layer : TiledLayer) (ts : TiledTileset)
    (chunk_x chunk_y : Nat) : Chunk :=
  { position := ⟨(chunk_x : ℚ), (chunk_y : ℚ)⟩
    tiles := (List.range target_chunk_x).map (chunkColumn m layer ts chunk_x chunk_y) }

/-- One `TilesetLayer` (map.rs:166-307): the full chunk grid for one
(layer, tileset) pair, `chunk_size m.width` columns of
`chunk_size m.height` chunks each. -/
def buildTilesetLayer (m : TiledMap) (layer : TiledLayer) (ts : TiledTileset) : TilesetLayer :=
  { tile_size := ⟨(ts.tile_width : ℚ), (ts.tile_height : ℚ)⟩
    chunks := (List.range (chunk_size m.width)).map fun chunk_x =>
      (List.range (chunk_size m.height)).map fun chunk_y =>
        buildChunk m layer ts chunk_x chunk_y
    tileset_guid := ts.first_gid }

/-- The `layers` vector of the compiled map (map.rs:148-312): one
`Layer` per *visible* input layer, containing one `TilesetLayer` per
tileset of the map. -/
def compileLayers (m : TiledMap) : List Layer :=
  (m.layers.filter (fun l => l.visible)).map fun layer =>
    { tileset_layers := m.tilesets.map (buildTilesetLayer m layer) }

/-- The 4 vertex positions pushed for one quad (map.rs:332-339), in push
order: `(x,y) (x,w) (z,w) (z,y)` each with z-coordinate 0. -/
def tilePositions (t : Tile) : List (ℚ × ℚ × ℚ) :=
  [(t.vertex.x, t.vertex.y, 0), (t.vertex.x, t.vertex.w, 0),
   (t.vertex.z, t.vertex.w, 0), (t.vertex.z, t.vertex.y, 0)]

/-- The 4 UV coordinates pushed for one quad (map.rs:341-363): the base
corner order reordered by the tile's flip flags. -/
def tileUVList (t : Tile) : List (ℚ × ℚ) :=
  let q := flipUVs t.flip_d t.flip_h t.flip_v (baseUVQuad t.uv)
  [q.1, q.2.1, q.2.2.1, q.2.2.2]

/-- One chunk's mesh buffers (positions, uvs, indices). -/
structure MeshBuf where
  positions : List (ℚ × ℚ × ℚ)
  uvs : List (ℚ × ℚ)
  indices : List Nat
deriving DecidableEq

/-- One iteration of the Mesh Assembler loop (map.rs:327-368), carrying
the buffers and the running index base `i`: a tile with
`tile_id < tileset_guid` is skipped, any other tile appends 4 positions,
4 UVs and the 6 indices `[i, i+2, i+1, i, i+3, i+2]`, then `i += 4`. -/
def meshStep (tileset_guid : Nat) (acc : MeshBuf × Nat) (t : Tile) : MeshBuf × Nat :=
  if t.tile_id < tileset_guid then acc
  else
    ({ positions := acc.1.positions ++ tilePositions t
       uvs := acc.1.uvs ++ tileUVList t
       indices := acc.1.indices ++
         [acc.2, acc.2 + 2, acc.2 + 1, acc.2, acc.2 + 3, acc.2 + 2] },
     acc.2 + 4)

/-- The Mesh Assembler for one chunk (map.rs:322-368): fold over the
chunk's tiles flattened in `flat_map` order, starting from empty buffers
and `i = 0`. -/
def buildMesh (tiles : List Tile) (tileset_guid : Nat) : MeshBuf :=
  (tiles.foldl (meshStep tileset_guid) (⟨[], [], []⟩, 0)).1

/-- The mesh record pushed for one chunk (map.rs:370-379): `some` entry
`(layer_id, tileset_guid, mesh)` when `positions.len() > 0`, `none`
otherwise (no mesh record at all for an empty chunk). -/
def chunkMeshEntry (layer_id tileset_guid : Nat) (chunk : Chunk) :
    Option (Nat × Nat × MeshBuf) :=
  let mb := buildMesh chunk.tiles.flatten tileset_guid
  if 0 < mb.positions.length then some (layer_id, tileset_guid, mb) else none

/-- The `meshes` vector of the compiled map (map.rs:314-383): iterate
the compiled layers with their index, each tileset-layer, each chunk in
x- then y-order. -/
def buildMeshes (layers : List Layer) : List (Nat × Nat × MeshBuf) :=
  layers.enum.flatMap fun p =>
    p.2.tileset_layers.flatMap fun tl =>
      tl.chunks.flatten.filterMap (chunkMeshEntry p.1 tl.tileset_guid)

/-- Mirror of `tiled::ObjectShape`, with `f32` payloads as exact rationals. -/
inductive TiledObjectShape where
  | rect (width height : ℚ)
  | ellipse (width height : ℚ)
  | polyline (points : List (ℚ × ℚ))
  | polygon (points : List (ℚ × ℚ))
  | point (x y : ℚ)
deriving DecidableEq

/-- Mirror of `bevy::Transform` restricted to the fields `map.rs` manipulates
(translation and scale; rotation is never touched). -/
structure Transform where
  translation : Vec3
  scale : Vec3
deriving DecidableEq

/-- Identity transform, `Transform::default()`. -/
def idTransform : Transform := ⟨⟨0, 0, 0⟩, ⟨1, 1, 1⟩⟩

/-- The `Object` struct (map.rs:429-439), restricted to the fields the
claims touch (`props`, `name` and `visible` are carried verbatim from
the input and never influence the modelled functions). -/
structure Object where
  shape : TiledObjectShape
  position : Vec2
  gid : Nat
  tileset_gid : Option Nat
  sprite_index : Option Nat
deriving DecidableEq

/-- Source `Object::new` (map.rs:442-454): both resolved fields start `None`. -/
def Object.new (shape : TiledObjectShape) (x y : ℚ) (gid : Nat) : Object :=
  { shape := shape, position := ⟨x, y⟩, gid := gid, tileset_gid := none, sprite_index := none }

/-- Source `Object::set_tile_ids` (map.rs:469-472). -/
def Object.set_tile_ids (o : Object) (gids : Nat → Option Nat) : Object :=
  { o with
    tileset_gid := gids o.gid
    sprite_index := (gids o.gid).map fun first_gid => o.gid - first_gid }

/-- Source `Object::new_with_tile_ids` (map.rs:460-468). -/
def Object.new_with_tile_ids (shape : TiledObjectShape) (x y : ℚ) (gid : Nat)
    (gids : Nat → Option Nat) : Object :=
  (Object.new shape x y gid).set_tile_ids gids

/-- Source `Object::is_shape` (map.rs:456-458). -/
def Object.is_shape (o : Object) : Bool := o.tileset_gid.isNone

/-- Source `Object::dimensions` (map.rs:605-613). -/
def Object.dimensions (o : Object) : Option Vec2 :=
  match o.shape with
  | .rect width height => some ⟨width, height⟩
  | .ellipse width height => some ⟨width, height⟩
  | .polyline _ => some ⟨1, 1⟩
  | .polygon _ => some ⟨1, 1⟩
  | .point _ _ => some ⟨1, 1⟩

/-- Source `Object::transform_from_map` (map.rs:474-534).  Only the map's
orientation is read from the `tiled::Map` argument.  `none` models the
fatal error for a `Rect` object under an unsupported orientation
(map.rs:522); all other shapes return the cloned map transform
unchanged.  `z_relative_to_map` is the constant 15.0 (map.rs:494). -/
def Object.transform_from_map (o : Object) (map_orientation : TiledOrientation)
    (map_transform : Transform) (tile_scale : Option Vec3) : Option Transform :=
  match o.shape with
  | .rect width height =>
    match map_orientation with
    | .orthogonal =>
      let base : Vec2 := ⟨o.position.x, -o.position.y⟩
      let shifted : Vec2 × Vec3 :=
        match tile_scale with
        | none => (⟨base.x + width / 2, base.y + (-height) / 2⟩, map_transform.scale)
        | some ts =>
          (⟨base.x + width / 2, base.y + height / 2⟩,
           ⟨ts.x * map_transform.scale.x, ts.y * map_transform.scale.y,
            ts.z * map_transform.scale.z⟩)
      let center_offset : Vec2 :=
        ⟨shifted.1.x * map_transform.scale.x, shifted.1.y * map_transform.scale.y⟩
      some
        { translation :=
            ⟨map_transform.translation.x + center_offset.x,
             map_transform.translation.y + center_offset.y,
             map_transform.translation.z + (15 - center_offset.y / 2000)⟩
          scale := shifted.2 }
    | .isometric => none
  | .ellipse _ _ => some map_transform
  | .polyline _ => some map_transform
  | .polygon _ => some map_transform
  | .point _ _ => some map_transform

/-- Fixture for the C3 counterexample: two tilesets whose gid ranges
`[1, 11)` and `[5, 15)` overlap on `[5, 11)`; the first-declared tileset
is processed first by the forward pass. -/
def overlapTilesets : List TiledTileset :=
  [⟨1, 16, 16, 0, 160, 16, some 10⟩, ⟨5, 16, 16, 0, 160, 16, some 10⟩]

/-- Fixture for C8: a single tileset with `first_gid = 1` and
`tile_count = 10`, no other tileset. -/
def singleTileset : List TiledTileset :=
  [⟨1, 16, 16, 0, 160, 16, some 10⟩]

/-- Fixture map for the C6 witness: 70×0 tiles (no tilesets or layers
are needed to exercise the chunk grid shape). -/
def thinMap : TiledMap := ⟨70, 0, 16, 16, .orthogonal, [], []⟩

/-- The single tileset of the raggedness fixture: ids `[1, 2)`. -/
def raggedTileset : TiledTileset := ⟨1, 16, 16, 0, 16, 16, some 1⟩

/-- The single layer of the raggedness fixture: its only cell carries
gid 5, which is outside the tileset's id range. -/
def raggedLayer : TiledLayer := ⟨true, [[⟨5, false, false, false⟩]]⟩

/-- A 1×1 map whose only cell's gid falls outside the tileset's range. -/
def raggedMap : TiledMap := ⟨1, 1, 16, 16, .orthogonal, [raggedTileset], [raggedLayer]⟩

/-- The C5 scenario tileset: `first_gid = 1`, 16×16 tiles, zero spacing,
16×16 source image (a single tile), `tilecount = 1`. -/
def scenarioTileset : TiledTileset := ⟨1, 16, 16, 0, 16, 16, some 1⟩

/-- The C5 scenario layer: visible, 2×2 cells, all empty except grid
cell `(x,y) = (1,0)` (row 0, column 1) whose gid is 1 with no flips. -/
def scenarioLayer : TiledLayer :=
  ⟨true,
   [[⟨0, false, false, false⟩, ⟨1, false, false, false⟩],
    [⟨0, false, false, false⟩, ⟨0, false, false, false⟩]]⟩

/-- The C5 scenario map: 2×2 tiles of size 16×16, orthogonal, a single
tileset and a single visible layer. -/
def scenarioMap : TiledMap :=
  ⟨2, 2, 16, 16, .orthogonal, [scenarioTileset], [scenarioLayer]⟩

/-- The C9 scenario object: a rectangle shape of size 4×6 at position
`(10, 20)` with gid 0 (no gid), resolved against the single-tileset
resolver (gid 0 maps to no tileset). -/
def shapeObject : Object :=
  Object.new_with_tile_ids (.rect 4 6) 10 20 0 (tile_gids singleTileset)

/-- C3 counterexample: gid 5 lies in both ranges; the claim says the
mapping of the first-processed tileset (first_gid 1) sticks, but the
resolver returns the last-processed tileset's key (first_gid 5), because
`HashMap::insert` overwrites. -/
theorem tile_gids_overlap_last_wins_counterexample :
    tile_gids overlapTilesets 5 = some 5 ∧ tile_gids overlapTilesets 5 ≠ some 1 := by
  decide

/-- Helper: a fold step over a tileset whose range misses `g` leaves the
resolver's answer at `g` unchanged. -/
theorem tile_gids_foldl_miss (l : List TiledTileset) (acc : Nat → Option Nat) (g : Nat)
    (h : ∀ u ∈ l, g < u.first_gid ∨ u.first_gid + u.tilecount.getD 1 ≤ g) :
    l.foldl registerTileset acc g = acc g := by
  induction l generalizing acc with
  | nil => rfl
  | cons u l ih =>
    have hu := h u (List.mem_cons_self u l)
    have hl : ∀ v ∈ l, g < v.first_gid ∨ v.first_gid + v.tilecount.getD 1 ≤ g :=
      fun v hv => h v (List.mem_cons_of_mem u hv)
    rw [List.foldl_cons, ih _ hl]
    unfold registerTileset
    rw [if_neg]
    omega

/-- C3 amended: when gid ranges overlap, the resolver keeps the mapping
of whichever tileset is processed *last* among those covering the gid
(the forward pass inserts with overwrite, so the last write wins), not
the first. -/
theorem tile_gids_overlap_last_wins (l1 l2 : List TiledTileset) (t : TiledTileset) (g : Nat)
    (h1 : t.first_gid ≤ g) (h2 : g < t.first_gid + t.tilecount.getD 1)
    (h3 : ∀ u ∈ l2, g < u.first_gid ∨ u.first_gid + u.tilecount.getD 1 ≤ g) :
    tile_gids (l1 ++ t :: l2) g = some t.first_gid := by
  unfold tile_gids
  rw [List.foldl_append, List.foldl_cons, tile_gids_foldl_miss l2 _ g h3]
  unfold registerTileset
  rw [if_pos ⟨h1, h2⟩]

/-- Witness for `tile_gids_overlap_last_wins` at the overlap fixture:
gid 5 is covered by the last tileset, so its key 5 is returned. -/
theorem tile_gids_overlap_last_wins_witness :
    tile_gids overlapTilesets 5 = some 5 :=
  tile_gids_overlap_last_wins [⟨1, 16, 16, 0, 160, 16, some 10⟩] []
    ⟨5, 16, 16, 0, 160, 16, some 10⟩ 5 (by decide) (by decide) (by intro u hu; cases hu)

/-- C8: with a single tileset `first_gid = 1`, `tile_count = 10`, the
resolver returns `some 1` for every gid in `[1, 10]` — in particular at
1 and 10 — and `none` outside, including gid 0 and gid 11. -/
theorem resolve_single_tileset (g : Nat) :
    (1 ≤ g ∧ g ≤ 10 → tile_gids singleTileset g = some 1) ∧
    (g = 0 ∨ 11 ≤ g → tile_gids singleTileset g = none) ∧
    tile_gids singleTileset 1 = some 1 ∧
    tile_gids singleTileset 10 = some 1 ∧
    tile_gids singleTileset 0 = none ∧
    tile_gids singleTileset 11 = none := by
  refine ⟨?_, ?_, by decide, by decide, by decide, by decide⟩
  · intro hg
    unfold tile_gids singleTileset
    rw [List.foldl_cons, List.foldl_nil]
    unfold registerTileset
    rw [if_pos]
    simp only [Option.getD]
    omega
  · intro hg
    unfold tile_gids singleTileset
    rw [List.foldl_cons, List.foldl_nil]
    unfold registerTileset
    rw [if_neg]
    simp only [Option.getD]
    omega

/-- Witness for `resolve_single_tileset` at gid 10: in range, so the
lookup yields the tileset key 1. -/
theorem resolve_single_tileset_witness :
    tile_gids singleTileset 10 = some 1 ∧ tile_gids singleTileset 11 = none :=
  ⟨(resolve_single_tileset 10).1 (by omega), ((resolve_single_tileset 11).2.1) (by omega)⟩

/-- C1 counterexample: with distinct corners `A,B,C,D = 0,1,2,3`, the
vertical-only reordering yields `[B,A,D,C] = (1,0,3,2)`, not the claimed
`[C,D,A,B] = (2,3,0,1)`. -/
theorem flipUVs_vertical_counterexample :
    flipUVs false false true ((0 : Nat), 1, 2, 3) = (1, 0, 3, 2) ∧
    flipUVs false false true ((0 : Nat), 1, 2, 3) ≠ (2, 3, 0, 1) := by
  decide

/-- C1 amended: for an unflipped corner order `[A,B,C,D]`, the Mesh
Assembler's fixed flip sequence yields, for each of the 8 flag
combinations `(diagonal, horizontal, vertical)`: no flip `[A,B,C,D]`,
diagonal-only `[C,B,A,D]`, horizontal-only `[D,C,B,A]`, vertical-only
`[B,A,D,C]` (not `[C,D,A,B]` as claimed), diagonal+horizontal
`[D,A,B,C]`, diagonal+vertical `[B,C,D,A]`, horizontal+vertical
`[C,D,A,B]`, and all three `[A,D,C,B]`. -/
theorem flipUVs_all_combinations {α : Type} (A B C D : α) :
    flipUVs false false false (A, B, C, D) = (A, B, C, D) ∧
    flipUVs true false false (A, B, C, D) = (C, B, A, D) ∧
    flipUVs false true false (A, B, C, D) = (D, C, B, A) ∧
    flipUVs false false true (A, B, C, D) = (B, A, D, C) ∧
    flipUVs true true false (A, B, C, D) = (D, A, B, C) ∧
    flipUVs true false true (A, B, C, D) = (B, C, D, A) ∧
    flipUVs false true true (A, B, C, D) = (C, D, A, B) ∧
    flipUVs true true true (A, B, C, D) = (A, D, C, B) := by
  refine ⟨rfl, rfl, rfl, rfl, rfl, rfl, rfl, rfl⟩

/-- C10: `Object::dimensions` is total — it returns `Some` for every
shape: the width/height pair for rectangles and ellipses, and `(1,1)`
for polylines, polygons and points. -/
theorem dimensions_total (o : Object) :
    o.dimensions ≠ none ∧
    (∀ w h, o.shape = .rect w h → o.dimensions = some ⟨w, h⟩) ∧
    (∀ w h, o.shape = .ellipse w h → o.dimensions = some ⟨w, h⟩) ∧
    (∀ pts, o.shape = .polyline pts → o.dimensions = some ⟨1, 1⟩) ∧
    (∀ pts, o.shape = .polygon pts → o.dimensions = some ⟨1, 1⟩) ∧
    (∀ x y, o.shape = .point x y → o.dimensions = some ⟨1, 1⟩) := by
  unfold Object.dimensions
  cases h : o.shape <;>
    simp [h]

/-- Witness for `dimensions_total` at a rectangle object. -/
theorem dimensions_total_witness :
    (Object.new (.rect 4 6) 10 20 0).dimensions = some ⟨4, 6⟩ :=
  (dimensions_total (Object.new (.rect 4 6) 10 20 0)).2.1 4 6 rfl

/-- Rounding `round_half_away` is the identity on integers. -/
theorem round_half_away_intCast (a : ℤ) : round_half_away ((a : ℤ) : ℚ) = a := by
  unfold round_half_away
  split
  · rw [← Int.cast_neg, round_intCast]
    omega
  · rw [round_intCast]

/-- C4: for every grid position and positive tile size, unprojection
inverts projection: exactly for the orthogonal pair, and for the
isometric pair after its nearest-integer rounding whenever the position
is integral. -/
theorem unproject_project_roundtrip (p : Vec2) (w h : ℚ) (hw : 0 < w) (hh : 0 < h) :
    unproject_ortho (project_ortho p w h) w h = p ∧
    (∀ a b : ℤ, p.x = (a : ℚ) → p.y = (b : ℚ) →
      unproject_iso (project_iso p w h) w h = p) := by
  have hw0 : w ≠ 0 := ne_of_gt hw
  have hh0 : h ≠ 0 := ne_of_gt hh
  constructor
  · cases p with
  | mk px py =>
    unfold project_ortho unproject_ortho
    simp only [Vec2.mk.injEq]
    constructor
    · field_simp
    · field_simp
  · intro a b ha hb
    cases p with
  | mk px py =>
    simp only at ha hb
    subst ha hb
    unfold project_iso unproject_iso
    simp only [Vec2.mk.injEq]
    have ex : ((((a : ℚ) - b) * w / 2) / (w / 2) + -(-(((a : ℚ) + b) * h / 2)) / (h / 2)) / 2
        = ((a : ℚ)) := by
      field_simp
    have ey : (-(-(((a : ℚ) + b) * h / 2)) / (h / 2) - (((a : ℚ) - b) * w / 2) / (w / 2)) / 2
        = ((b : ℚ)) := by
      field_simp
    rw [ex, ey, round_half_away_intCast, round_half_away_intCast]
    exact ⟨rfl, rfl⟩

/-- Witness for `unproject_project_roundtrip` at `p = (3, 5)`,
tile size 16×16. -/
theorem unproject_project_roundtrip_witness :
    unproject_ortho (project_ortho ⟨3, 5⟩ 16 16) 16 16 = ⟨3, 5⟩ ∧
    unproject_iso (project_iso ⟨3, 5⟩ 16 16) 16 16 = ⟨3, 5⟩ := by
  have h := unproject_project_roundtrip ⟨3, 5⟩ 16 16 (by norm_num) (by norm_num)
  exact ⟨h.1, h.2 3 5 (by norm_num) (by norm_num)⟩

/-- C6: the chunk grid of every tileset-layer is
`chunk_size width × chunk_size height` chunks, where `chunk_size n`
equals `⌈n / 32⌉` for positive `n` and is clamped to 1 when `n = 0`
(minimum-one-chunk invariant). -/
theorem chunk_grid_dimensions (m : TiledMap) (layer : TiledLayer) (ts : TiledTileset) :
    (buildTilesetLayer m layer ts).chunks.length = chunk_size m.width ∧
    (∀ col ∈ (buildTilesetLayer m layer ts).chunks, col.length = chunk_size m.height) ∧
    (0 < m.width → (chunk_size m.width : ℤ) = ⌈(m.width : ℚ) / 32⌉) ∧
    (0 < m.height → (chunk_size m.height : ℤ) = ⌈(m.height : ℚ) / 32⌉) ∧
    (m.width = 0 → chunk_size m.width = 1) ∧
    (m.height = 0 → chunk_size m.height = 1) := by
  have key : ∀ n : Nat, 0 < n → (chunk_size n : ℤ) = ⌈(n : ℚ) / 32⌉ := by
    intro n hn
    have hq : (0 : ℚ) < (n : ℚ) / 32 := by positivity
    have hc : 0 < ⌈(n : ℚ) / 32⌉ := Int.ceil_pos.mpr hq
    unfold chunk_size
    rw [max_eq_left (by omega)]
    exact Int.toNat_of_nonneg (by omega)
  have zero : chunk_size 0 = 1 := by decide
  refine ⟨?_, ?_, key m.width, key m.height, ?_, ?_⟩
  · simp [buildTilesetLayer]
  · intro col hcol
    unfold buildTilesetLayer at hcol
    simp only [List.mem_map] at hcol
    obtain ⟨cx, _, rfl⟩ := hcol
    simp
  · intro hw; rw [hw]; exact zero
  · intro hh; rw [hh]; exact zero

/-- Witness for `chunk_grid_dimensions` on the 70×0 map: 3 = ⌈70/32⌉
chunk columns, and the degenerate height still yields one chunk row. -/
theorem chunk_grid_dimensions_witness :
    (chunk_size thinMap.width : ℤ) = ⌈((70 : ℕ) : ℚ) / 32⌉ ∧ chunk_size thinMap.height = 1 := by
  have h := chunk_grid_dimensions thinMap ⟨true, []⟩ ⟨1, 16, 16, 0, 160, 16, some 10⟩
  exact ⟨h.2.2.1 (by decide), h.2.2.2.2.2 rfl⟩

/-- Helper for C7: folding the Mesh Assembler step over any tile list
grows the three buffers by exactly 4, 4 and 6 entries per tile whose
`tile_id` is at least the tileset key. -/
theorem meshStep_foldl_lengths (tileset_guid : Nat) (l : List Tile) (acc : MeshBuf × Nat) :
    (l.foldl (meshStep tileset_guid) acc).1.positions.length
        = acc.1.positions.length + 4 * l.countP (fun t => decide (tileset_guid ≤ t.tile_id)) ∧
    (l.foldl (meshStep tileset_guid) acc).1.uvs.length
        = acc.1.uvs.length + 4 * l.countP (fun t => decide (tileset_guid ≤ t.tile_id)) ∧
    (l.foldl (meshStep tileset_guid) acc).1.indices.length
        = acc.1.indices.length + 6 * l.countP (fun t => decide (tileset_guid ≤ t.tile_id)) := by
  induction l generalizing acc with
  | nil => simp
  | cons t l ih =>
    rw [List.foldl_cons, List.countP_cons]
    by_cases h : t.tile_id < tileset_guid
    · have hp : decide (tileset_guid ≤ t.tile_id) = false := by
        simp only [decide_eq_false_iff_not]
        omega
      have hstep : meshStep tileset_guid acc t = acc := by
        unfold meshStep
        rw [if_pos h]
      rw [hstep, hp]
      rcases ih acc with ⟨e1, e2, e3⟩
      rw [e1, e2, e3]
      simp
    · have hp : decide (tileset_guid ≤ t.tile_id) = true := by
        simp only [decide_eq_true_eq]
        omega
      have hstep : meshStep tileset_guid acc t
          = ({ positions := acc.1.positions ++ tilePositions t
               uvs := acc.1.uvs ++ tileUVList t
               indices := acc.1.indices ++
                 [acc.2, acc.2 + 2, acc.2 + 1, acc.2, acc.2 + 3, acc.2 + 2] },
             acc.2 + 4) := by
        unfold meshStep
        rw [if_neg h]
      rw [hstep, hp]
      rcases ih _ with ⟨e1, e2, e3⟩
      rw [e1, e2, e3]
      simp only [List.length_append, tilePositions, tileUVList, List.length_cons,
        List.length_nil, if_true]
      refine ⟨by omega, by omega, by omega⟩

/-- C7: for one chunk of a tileset-layer, with `n` the number of tiles
whose gid is at least the tileset's first-gid, the Mesh Assembler emits
exactly `4n` positions, `4n` UVs and `6n` indices; a chunk with `n = 0`
contributes no mesh record at all to the compiled mesh list, and a chunk
with `n > 0` contributes exactly its `(layer_id, tileset_guid, mesh)`
record. -/
theorem mesh_buffer_counts (chunk : Chunk) (layer_id tileset_guid : Nat) :
    (buildMesh chunk.tiles.flatten tileset_guid).positions.length
        = 4 * chunk.tiles.flatten.countP (fun t => decide (tileset_guid ≤ t.tile_id)) ∧
    (buildMesh chunk.tiles.flatten tileset_guid).uvs.length
        = 4 * chunk.tiles.flatten.countP (fun t => decide (tileset_guid ≤ t.tile_id)) ∧
    (buildMesh chunk.tiles.flatten tileset_guid).indices.length
        = 6 * chunk.tiles.flatten.countP (fun t => decide (tileset_guid ≤ t.tile_id)) ∧
    (chunk.tiles.flatten.countP (fun t => decide (tileset_guid ≤ t.tile_id)) = 0 →
      chunkMeshEntry layer_id tileset_guid chunk = none) ∧
    (0 < chunk.tiles.flatten.countP (fun t => decide (tileset_guid ≤ t.tile_id)) →
      chunkMeshEntry layer_id tileset_guid chunk
        = some (layer_id, tileset_guid, buildMesh chunk.tiles.flatten tileset_guid)) := by
  rcases meshStep_foldl_lengths tileset_guid chunk.tiles.flatten (⟨[], [], []⟩, 0) with ⟨e1, e2, e3⟩
  simp only [List.length_nil, Nat.zero_add] at e1 e2 e3
  have e1' : (buildMesh chunk.tiles.flatten tileset_guid).positions.length
      = 4 * chunk.tiles.flatten.countP (fun t => decide (tileset_guid ≤ t.tile_id)) := e1
  have e2' : (buildMesh chunk.tiles.flatten tileset_guid).uvs.length
      = 4 * chunk.tiles.flatten.countP (fun t => decide (tileset_guid ≤ t.tile_id)) := e2
  have e3' : (buildMesh chunk.tiles.flatten tileset_guid).indices.length
      = 6 * chunk.tiles.flatten.countP (fun t => decide (tileset_guid ≤ t.tile_id)) := e3
  refine ⟨e1', e2', e3', ?_, ?_⟩
  · intro hz
    have hlen : ¬ 0 < (buildMesh chunk.tiles.flatten tileset_guid).positions.length := by
      rw [e1', hz]
      omega
    simp only [chunkMeshEntry]
    rw [if_neg hlen]
  · intro hpos
    have hlen : 0 < (buildMesh chunk.tiles.flatten tileset_guid).positions.length := by
      rw [e1']
      omega
    simp only [chunkMeshEntry]
    rw [if_pos hlen]

/-- C2 amended: each chunk has exactly 32 `tiles_y` columns; a cell
beyond the map boundary is pushed as an empty `Tile` (gid 0); but an
in-bounds cell whose raw gid falls outside this tileset's id range is
*omitted* from the column (the `continue` skips the push), so a column
holds at most 32 tiles and chunks of one layer/tileset pair need not
have identical dimensions. -/
theorem chunk_cell_layout (m : TiledMap) (layer : TiledLayer) (ts : TiledTileset)
    (chunk_x chunk_y tile_x tile_y : Nat) :
    (buildChunk m layer ts chunk_x chunk_y).tiles.length = target_chunk_x ∧
    (chunkColumn m layer ts chunk_x chunk_y tile_x).length ≤ target_chunk_y ∧
    (¬(chunk_x * target_chunk_x + tile_x < m.width ∧
        chunk_y * target_chunk_y + tile_y < m.height) →
      buildCell m layer ts chunk_x chunk_y tile_x tile_y = some (emptyTile tile_x tile_y)) ∧
    ((chunk_x * target_chunk_x + tile_x < m.width ∧
        chunk_y * target_chunk_y + tile_y < m.height) →
      ((tileAt layer (chunk_x * target_chunk_x + tile_x)
          (chunk_y * target_chunk_y + tile_y)).gid < ts.first_gid ∨
        ts.first_gid + ts.tilecount.getD 0
          ≤ (tileAt layer (chunk_x * target_chunk_x + tile_x)
              (chunk_y * target_chunk_y + tile_y)).gid) →
      buildCell m layer ts chunk_x chunk_y tile_x tile_y = none) := by
  refine ⟨?_, ?_, ?_, ?_⟩
  · simp [buildChunk]
  · have h := List.length_filterMap_le
      (buildCell m layer ts chunk_x chunk_y tile_x) (List.range target_chunk_y)
    simpa [chunkColumn] using h
  · intro hout
    unfold buildCell
    rw [if_neg hout]
  · intro hin hrange
    unfold buildCell
    rw [if_pos hin, if_pos hrange]

/-- C2 counterexample: the in-bounds cell with a foreign gid is skipped
outright, so the first `tiles_y` column of the chunk has 31 entries
while the second has 32 — the chunk's tile array is not the claimed full
fixed-size 32×32 grid. -/
theorem chunk_fixed_size_counterexample :
    buildCell raggedMap raggedLayer raggedTileset 0 0 0 0 = none ∧
    ((buildChunk raggedMap raggedLayer raggedTileset 0 0).tiles.map List.length).getD 0 0 = 31 ∧
    ((buildChunk raggedMap raggedLayer raggedTileset 0 0).tiles.map List.length).getD 1 0 = 32 := by
  decide

/-- Witness for `chunk_cell_layout` on the raggedness fixture: the cell
beyond the map boundary at `(0,5)` becomes an empty tile, and the
in-bounds foreign-gid cell at `(0,0)` is omitted. -/
theorem chunk_cell_layout_witness :
    buildCell raggedMap raggedLayer raggedTileset 0 0 0 5 = some (emptyTile 0 5) ∧
    buildCell raggedMap raggedLayer raggedTileset 0 0 0 0 = none :=
  ⟨(chunk_cell_layout raggedMap raggedLayer raggedTileset 0 0 0 5).2.2.1 (by decide),
   (chunk_cell_layout raggedMap raggedLayer raggedTileset 0 0 0 0).2.2.2 (by decide) (by decide)⟩

/-- C5: compiling the scenario map yields one compiled layer whose
single tileset-layer has a 1×1 chunk grid; the one non-empty tile gets
vertex rect `x ∈ [16, 32]`, `y ∈ [-16, 0]` and UV rect `[0,0,1,1]`; and
the compiled mesh list holds exactly one mesh, tagged `(layer 0,
tileset-key 1)`, with 4 positions, 4 UVs and the 6 indices of two
triangles. -/
theorem scenario_compile :
    (compileLayers scenarioMap).map
        (fun l => l.tileset_layers.map fun tl => (tl.chunks.length, tl.chunks.map List.length))
      = [[(1, [1])]] ∧
    buildCell scenarioMap scenarioLayer scenarioTileset 0 0 1 0
      = some
        { tile_id := 1, pos := ⟨1, 0⟩, vertex := ⟨16, -16, 32, 0⟩, uv := ⟨0, 0, 1, 1⟩,
          flip_d := false, flip_h := false, flip_v := false } ∧
    buildMeshes (compileLayers scenarioMap)
      = [(0, 1,
          { positions := [(16, -16, 0), (16, 0, 0), (32, 0, 0), (32, -16, 0)],
            uvs := [(0, 1), (0, 0), (1, 0), (1, 1)],
            indices := [0, 2, 1, 0, 3, 2] })] := by
  set_option maxRecDepth 100000 in decide

/-- Witness for `mesh_buffer_counts` on the C5 scenario chunk: its
single in-range tile yields one quad, so a mesh record is emitted. -/
theorem mesh_buffer_counts_witness :
    chunkMeshEntry 0 1 (buildChunk scenarioMap scenarioLayer scenarioTileset 0 0)
      = some (0, 1,
          buildMesh (buildChunk scenarioMap scenarioLayer scenarioTileset 0 0).tiles.flatten 1) :=
  (mesh_buffer_counts (buildChunk scenarioMap scenarioLayer scenarioTileset 0 0) 0 1).2.2.2.2
    (by set_option maxRecDepth 100000 in decide)

/-- C9: the gid-less rectangle object is a pure shape, its dimensions
are `(4, 6)`, and the debug-box transform derived from an identity map
transform under orthogonal orientation translates to
`x = 12, y = -23` (half-extent offset `(2, -3)` added to the y-negated
position `(10, -20)`). -/
theorem shape_object_scenario :
    shapeObject.is_shape = true ∧
    shapeObject.dimensions = some ⟨4, 6⟩ ∧
    (shapeObject.transform_from_map .orthogonal idTransform none).map
        (fun tr => (tr.translation.x, tr.translation.y))
      = some (12, -23) := by
  decide

